import Mathlib

/-!
Verification development for the `aria-csar-extension` CSAR packaging
library (`nfvo_packager`).  The Python sources are shallowly embedded:
pure helpers become Lean functions, raised exceptions become `Except`
errors, filesystem and network effects become explicit parameters
(association lists of existing files, boolean URL oracles), and the
standard-library pieces the code leans on (`os.path.join`,
`zipfile.extractall` member sanitization, `base64.b64decode`,
`hmac.compare_digest`, hex encoding of digests) are modelled with their
documented CPython semantics.  Machine-level hashing (`hashlib`,
`hmac`) is abstracted as an explicit function parameter, since only its
deterministic input/output behaviour matters to the claims.
-/

set_option autoImplicit false

/-- Python exception kinds raised by the embedded code paths.  The
source raises `RuntimeError` with a message for all validation
failures; `AttributeError`, `ValueError` and `TypeError` arise from the
runtime itself (missing module attribute, `list.remove` on a missing
element, operations on unsuitable types). -/
inductive PyError where
  | runtimeError (msg : String)
  | attributeError (name : String)
  | valueError (msg : String)
  | typeError (msg : String)
  deriving Repr, DecidableEq

instance {ε α : Type} [DecidableEq ε] [DecidableEq α] :
    DecidableEq (Except ε α) := fun x y =>
  match x, y with
  | .ok a, .ok b =>
    if h : a = b then isTrue (by rw [h])
    else isFalse (by intro he; cases he; exact h rfl)
  | .error a, .error b =>
    if h : a = b then isTrue (by rw [h])
    else isFalse (by intro he; cases he; exact h rfl)
  | .ok _, .error _ => isFalse (by intro he; cases he)
  | .error _, .ok _ => isFalse (by intro he; cases he)

/-- Extracts the success flag from an embedded computation. -/
def isOkE {α : Type} : Except PyError α → Bool
  | .ok _ => true
  | .error _ => false

/-- Kernel-reducible test that `p` is an initial segment of `s` (the
library's `String.startsWith` is opaque to kernel reduction). -/
def strStartsWith (s p : String) : Bool :=
  p.toList.isPrefixOf s.toList

/-- Kernel-reducible test that `p` is a final segment of `s`. -/
def strEndsWith (s p : String) : Bool :=
  p.toList.reverse.isPrefixOf s.toList.reverse

/-- Splits a character list at every occurrence of `sep`, like Python's
`str.split(sep)`: the empty input yields one empty piece. -/
def splitOnChar (sep : Char) : List Char → List (List Char)
  | [] => [[]]
  | c :: rest =>
    let r := splitOnChar sep rest
    if c = sep then [] :: r
    else
      match r with
      | [] => [[c]]
      | h :: t => (c :: h) :: t

/-- Joins character-list pieces with a `/` separator, like
`'/'.join(...)`. -/
def joinWithSlash : List (List Char) → List Char
  | [] => []
  | [p] => p
  | p :: rest => p ++ '/' :: joinWithSlash rest

/-- Embedding of POSIX `os.path.join` on two components: a second
component that is absolute (starts with `/`) discards the first; a
separator is inserted unless the first component is empty or already
ends with one. -/
def pyJoin (a b : String) : String :=
  if strStartsWith b "/" then b
  else if a = "" then b
  else if strEndsWith a "/" then a ++ b
  else a ++ "/" ++ b

/-- Embedding of POSIX `os.path.join` on three components, as used by
`CSAR._validate_external_reference`. -/
def pyJoin3 (a b c : String) : String :=
  pyJoin (pyJoin a b) c

/-- Drops trailing `/` characters, the `head.rstrip('/')` step of
`posixpath.dirname`. -/
def rstripSlash (l : List Char) : List Char :=
  (l.reverse.dropWhile (fun c => c = '/')).reverse

/-- Embedding of POSIX `os.path.dirname`: everything up to the last
`/`; a head made only of slashes is kept, otherwise its trailing
slashes are stripped. -/
def dirname (p : String) : String :=
  let head := (p.toList.reverse.dropWhile (fun c => c ≠ '/')).reverse
  if head.isEmpty then ""
  else if head.all (fun c => c = '/') then String.mk head
  else String.mk (rstripSlash head)

/-- Embedding of the member-name sanitization CPython's
`ZipFile._extract_member` applies before writing an entry: the name is
split on the separator and empty, `.` and `..` components are removed,
so the target always stays below the destination directory.  The entry
is never rejected, only rewritten. -/
def sanitizeMemberName (name : String) : String :=
  String.mk (joinWithSlash
    ((splitOnChar '/' name.toList).filter
      (fun c => !(c.isEmpty || c = ['.'] || c = ['.', '.']))))

/-- A ZIP entry: its declared member name and its content bytes. -/
structure ZipEntry where
  name : String
  content : List Nat
  deriving Repr, DecidableEq

/-- A byte source as seen by `zipfile`: whether `is_zipfile` accepts it
and, when it does, its entry list. -/
structure ZipSource where
  isZip : Bool
  entries : List ZipEntry
  deriving Repr, DecidableEq

/-- Embedding of `ZipFile.extractall(tmp_dirname)`: every entry is
written to the join of the destination directory with its sanitized
member name.  Returns the list of written files (target path, bytes). -/
def extractall (dest : String) (entries : List ZipEntry) :
    List (String × List Nat) :=
  entries.map (fun e => (pyJoin dest (sanitizeMemberName e.name), e.content))

/-- Embedding of `CSARReader._extract` (reader.py lines 155-173): fail
when no local file is recorded, fail when the byte source is not a ZIP,
otherwise extract every entry into the scratch directory with
`extractall` and record the scratch directory as the destination.  No
check of any member name is performed. -/
def csar_extract (localFile : Option String) (src : ZipSource)
    (tmpDirname : String) : Except PyError (List (String × List Nat)) :=
  match localFile with
  | none => .error (.runtimeError "Missing CSAR file")
  | some _ =>
    if !src.isZip then
      .error (.runtimeError "CSAR file is not in ZIP format")
    else
      .ok (extractall tmpDirname src.entries)

/-- Boolean membership of a string in a list of strings, used for the
embedded filesystem (`os.path.isfile` over a set of existing paths). -/
def listHasStr (fs : List String) (p : String) : Bool :=
  fs.any (fun q => q = p)

/-- Modelled from the spec: `UrlUtils.validate_url` and
`UrlUtils.url_accessible` (module `nfvo_packager.utils` is not in the
source tree).  Per the spec a reference either "parses as a URL" and
then "must be reachable (network existence check)"; both checks are
abstracted as boolean oracles passed explicitly. -/
structure UrlOracle where
  validateUrl : String → Bool
  urlAccessible : String → Bool

/-- Embedding of `CSAR._validate_external_reference` (csar.py lines
233-263).  `fs` is the set of files existing on disk (absolute paths).
If the value parses as a URL it must be reachable, otherwise an error
is raised (the inner raise is swallowed by the blanket `except` clause
and re-raised as a `RuntimeError`; the gettext helper on the `msg` line
is treated as the identity provided by the package's missing i18n
module).  Otherwise the value is checked as a path joined with
`os.path.join(temp_dir, dirname(tpl_file), resource_file)` — note that
`os.path.join` discards the earlier components when `resource_file` is
absolute.  Missing paths raise only when `raiseExc` is set. -/
def validate_external_reference (urls : UrlOracle) (fs : List String)
    (tempDir : String) (tplFile : String) (resourceFile : String)
    (raiseExc : Bool) : Except PyError Unit :=
  if urls.validateUrl resourceFile then
    if urls.urlAccessible resourceFile then .ok ()
    else
      .error (.runtimeError
        ("The resource at \"" ++ resourceFile ++ "\" cannot be accessed"))
  else if listHasStr fs (pyJoin3 tempDir (dirname tplFile) resourceFile) then
    .ok ()
  else if raiseExc then
    .error (.runtimeError
      ("The resource \"" ++ resourceFile ++ "\" does not exist"))
  else .ok ()

/-- Removes the first occurrence of `x`, the successful branch of
Python's `list.remove`. -/
def removeFirst : List String → String → List String
  | [], _ => []
  | a :: rest, x => if a = x then rest else a :: removeFirst rest x

/-- Embedding of Python's `list.remove(x)`: removes the first
occurrence of `x`, raising `ValueError` when `x` is not present. -/
def pyRemove (l : List String) (x : String) : Except PyError (List String) :=
  if l.any (fun q => q = x) then .ok (removeFirst l x)
  else .error (.valueError "list.remove(x): x not in list")

/-- Modelled from the spec: `ImportsLoader` (module
`nfvo_packager.imports` is not in the source tree).  Per the spec each
remaining import "is resolved via the rules below and must exist";
resolution success is abstracted as a boolean oracle and the first
failing import aborts validation with an error naming it. -/
def importsLoader (resolveImport : String → Bool) :
    List String → Except PyError Unit
  | [] => .ok ()
  | i :: rest =>
    if resolveImport i then importsLoader resolveImport rest
    else .error (.runtimeError ("Import \"" ++ i ++ "\" does not exist"))

/-- The well-known implicit base-profile import literal removed by
`CSAR._validate_external_references`. -/
def baseProfileImport : String :=
  "tosca-simple-profile-1.0/tosca-simple-profile-1.0.yaml"

/-- Embedding of the `imports` section of
`CSAR._validate_external_references` (csar.py lines 179-186): when the
key is present, `imports.remove(<base profile literal>)` runs
unconditionally — raising `ValueError` when the literal is absent, in
particular on an empty list — and when the remainder is non-empty it is
handed to the imports loader. -/
def validate_imports (resolveImport : String → Bool)
    (importsOpt : Option (List String)) : Except PyError Unit :=
  match importsOpt with
  | none => .ok ()
  | some l =>
    match pyRemove l baseProfileImport with
    | .error e => .error e
    | .ok rest =>
      if rest.isEmpty then .ok ()
      else importsLoader resolveImport rest

/-- An artifact entry of a node template: a bare string, a mapping
(with or without a `file` key), or any other value. -/
inductive ArtifactDef where
  | astr (s : String)
  | amap (file : Option String)
  | aother
  deriving Repr, DecidableEq

/-- An interface operation entry: a bare string, a mapping (with or
without an `implementation` key), or any other value. -/
inductive OperationDef where
  | ostr (s : String)
  | omap (implementation : Option String)
  | oother
  deriving Repr, DecidableEq

/-- A node template as walked by the resolver: optional `artifacts`
mapping and optional `interfaces` mapping (interface name to a mapping
of operation name to operation entry). -/
structure NodeTemplate where
  artifacts : Option (List (String × ArtifactDef))
  interfaces : Option (List (String × List (String × OperationDef)))
  deriving Repr, DecidableEq

/-- The root template as consumed by the resolver: optional `imports`
list and the optional `topology_template.node_templates` chain
(collapsed: absence of either key yields `none`). -/
structure MainTemplate where
  imports : Option (List String)
  nodeTemplates : Option (List (String × NodeTemplate))
  deriving Repr, DecidableEq

/-- Sequences an error-raising check over a list, stopping at the first
error, as a Python `for` loop over raising calls does. -/
def exceptForList {α : Type} (f : α → Except PyError Unit) :
    List α → Except PyError Unit
  | [] => .ok ()
  | a :: rest =>
    match f a with
    | .error e => .error e
    | .ok _ => exceptForList f rest

/-- Embedding of the artifact arm of the node-template walk (csar.py
lines 196-212): bare strings and `file` values are resolved with
`raise_exc` left at its default `True`; a mapping without `file` is
skipped; any other shape raises. -/
def validate_node_artifact (urls : UrlOracle) (fs : List String)
    (tempDir : String) (tplFile : String) :
    String × ArtifactDef → Except PyError Unit
  | (_, .astr s) => validate_external_reference urls fs tempDir tplFile s true
  | (_, .amap (some f)) =>
    validate_external_reference urls fs tempDir tplFile f true
  | (_, .amap none) => .ok ()
  | (key, .aother) =>
    .error (.runtimeError ("Unexpected artifact definition for " ++ key))

/-- Embedding of the interface arm of the node-template walk (csar.py
lines 213-228): a bare-string operation is resolved with
`raise_exc=False`; a mapping's `implementation` value is resolved with
the default `raise_exc=True`; anything else is skipped silently. -/
def validate_operation (urls : UrlOracle) (fs : List String)
    (tempDir : String) (tplFile : String) :
    OperationDef → Except PyError Unit
  | .ostr s => validate_external_reference urls fs tempDir tplFile s false
  | .omap (some impl) =>
    validate_external_reference urls fs tempDir tplFile impl true
  | .omap none => .ok ()
  | .oother => .ok ()

/-- Embedding of the per-node-template body of the walk: the
`artifacts` mapping is checked first, then the `interfaces` mapping,
each key skipped when absent. -/
def validate_node_template (urls : UrlOracle) (fs : List String)
    (tempDir : String) (tplFile : String) (nt : String × NodeTemplate) :
    Except PyError Unit :=
  let artsRes : Except PyError Unit :=
    match nt.2.artifacts with
    | none => .ok ()
    | some arts =>
      exceptForList (validate_node_artifact urls fs tempDir tplFile) arts
  match artsRes with
  | .error e => .error e
  | .ok _ =>
    match nt.2.interfaces with
    | none => .ok ()
    | some ifaces =>
      exceptForList (fun iface =>
        exceptForList
          (fun op => validate_operation urls fs tempDir tplFile op.2)
          (iface : String × List (String × OperationDef)).2) ifaces

/-- Embedding of `CSAR._validate_external_references` (csar.py lines
164-231) after decompression: nothing happens without a main template;
otherwise the `imports` section runs first, then every node template's
artifacts and then its interfaces are walked in order. -/
def validate_external_references (urls : UrlOracle)
    (resolveImport : String → Bool) (fs : List String) (tempDir : String)
    (mainTplFile : Option String) (mainTpl : MainTemplate) :
    Except PyError Unit :=
  match mainTplFile with
  | none => .ok ()
  | some tplFile =>
    match validate_imports resolveImport mainTpl.imports with
    | .error e => .error e
    | .ok _ =>
      match mainTpl.nodeTemplates with
      | none => .ok ()
      | some nts =>
        exceptForList (validate_node_template urls fs tempDir tplFile) nts

/-- One hexadecimal digit character, the alphabet of `hexdigest()`. -/
def hexDigitChar : Nat → Char
  | 0 => '0' | 1 => '1' | 2 => '2' | 3 => '3' | 4 => '4' | 5 => '5'
  | 6 => '6' | 7 => '7' | 8 => '8' | 9 => '9' | 10 => 'a' | 11 => 'b'
  | 12 => 'c' | 13 => 'd' | 14 => 'e' | _ => 'f'

/-- The two hex characters rendering one byte. -/
def hexByteChars (b : Nat) : List Char :=
  [hexDigitChar (b / 16 % 16), hexDigitChar (b % 16)]

/-- Character list of the hexadecimal rendering of raw digest bytes. -/
def hexEncodeChars (bs : List Nat) : List Char :=
  (bs.map hexByteChars).flatten

/-- Embedding of `hexdigest()`: the hex string of raw digest bytes. -/
def hexEncode (bs : List Nat) : String :=
  String.mk (hexEncodeChars bs)

/-- The characters Python's `str.strip()` removes: space, tab, newline,
carriage return, vertical tab and form feed. -/
def isPyWsChar (c : Char) : Bool :=
  c = ' ' || c = '\t' || c = '\n' || c = '\r' || c.toNat = 11 || c.toNat = 12

/-- Removes Python whitespace from both ends of a character list. -/
def pyStripChars (l : List Char) : List Char :=
  ((l.dropWhile isPyWsChar).reverse.dropWhile isPyWsChar).reverse

/-- Embedding of Python's `str.strip()`. -/
def pyStripStr (s : String) : String :=
  String.mk (pyStripChars s.toList)

/-- Embedding of `CSARWriter.create_signature` (writer.py lines
168-205).  `rawHmac` abstracts `hmac.new(keydata, digestmod=sha384)`
fed with the archive bytes (the 4096-byte chunked reads concatenate to
the whole file); the result is its `hexdigest()`.  `destination` is the
archive's byte content at the destination path, `none` when the
destination is unset (the falsy check on `self.csar['destination']`);
the optional signature-file write is a side effect outside the model. -/
def create_signature (rawHmac : List Nat → List Nat → List Nat)
    (destination : Option (List Nat)) (keydata : List Nat) :
    Except PyError String :=
  match destination with
  | none =>
    .error (.runtimeError "Cannot calculate signature before CSAR package exists")
  | some archive => .ok (hexEncode (rawHmac keydata archive))

/-- Embedding of `hmac.compare_digest` for CPython byte strings: equal
length, then the XOR of every character pair is accumulated with
bitwise-or and compared with zero, so the scan always covers the whole
string (the constant-time discipline of the primitive). -/
def compare_digest (a b : String) : Bool :=
  (a.toList.length == b.toList.length) &&
    (((a.toList.zip b.toList).foldl
        (fun acc p => acc ||| (p.1.toNat ^^^ p.2.toNat)) 0) == 0)

/-- Embedding of `CSARWriter.verify_signature` (writer.py lines
207-237).  Supplying neither an inline digest nor a signature file
raises; an inline digest takes precedence over the file, whose read
content `sigfileContent` stands for; the digest is stripped, the fresh
signature recomputed with `create_signature`, and the two are compared
with `compare_digest` (the `basestring` check is always satisfied in
the model, where digests are strings). -/
def verify_signature (rawHmac : List Nat → List Nat → List Nat)
    (destination : Option (List Nat)) (keydata : List Nat)
    (digest : Option String) (sigfileContent : Option String) :
    Except PyError Bool :=
  match digest, sigfileContent with
  | none, none =>
    .error (.runtimeError "\"digest\" or \"sigfile\" must be set")
  | od, os =>
    let d0 : String :=
      match od with
      | some d => d
      | none =>
        match os with
        | some s => s
        | none => ""
    match create_signature rawHmac destination keydata with
    | .error e => .error e
    | .ok real => .ok (compare_digest (pyStripStr d0) real)

/-- Base64 value of one alphabet character, `none` outside the
standard alphabet. -/
def b64charVal (c : Char) : Option Nat :=
  if 'A' ≤ c ∧ c ≤ 'Z' then some (c.toNat - 65)
  else if 'a' ≤ c ∧ c ≤ 'z' then some (c.toNat - 97 + 26)
  else if '0' ≤ c ∧ c ≤ '9' then some (c.toNat - 48 + 52)
  else if c = '+' then some 62
  else if c = '/' then some 63
  else none

/-- Embedding of `base64.b64decode` on well-formed standard base64
text: quads of alphabet characters decode to three bytes, `=` padding
closes the final quad, anything else fails (the binascii error). -/
def b64decodeChars : List Char → Option (List Nat)
  | [] => some []
  | c1 :: c2 :: c3 :: c4 :: rest =>
    match b64charVal c1, b64charVal c2 with
    | some v1, some v2 =>
      if c3 = '=' then
        if c4 = '=' ∧ rest.isEmpty then some [v1 * 4 + v2 / 16] else none
      else
        match b64charVal c3 with
        | some v3 =>
          if c4 = '=' then
            if rest.isEmpty then
              some [v1 * 4 + v2 / 16, (v2 % 16) * 16 + v3 / 4]
            else none
          else
            match b64charVal c4, b64decodeChars rest with
            | some v4, some ds =>
              some ((v1 * 4 + v2 / 16) :: ((v2 % 16) * 16 + v3 / 4) ::
                    ((v3 % 4) * 64 + v4) :: ds)
            | _, _ => none
        | none => none
    | _, _ => none
  | _ => none

/-- The byte values Python's `str.strip()` removes. -/
def isPyWsByte (b : Nat) : Bool :=
  b = 32 || b = 9 || b = 10 || b = 13 || b = 11 || b = 12

/-- Embedding of `str.strip()` on a Python 2 byte string. -/
def pyStripBytes (l : List Nat) : List Nat :=
  ((l.dropWhile isPyWsByte).reverse.dropWhile isPyWsByte).reverse

/-- The bytes of an ASCII string, for comparing a decoded byte string
against a hexdigest text under Python 2's `str` equality. -/
def asciiBytes (s : String) : List Nat :=
  s.toList.map Char.toNat

/-- Truthiness test of `dict.get(key)` results: absent keys (`None`)
and empty strings are falsy. -/
def strFalsy : Option String → Bool
  | none => true
  | some s => s = ""

/-- A `signature` block of an artifact descriptor, with each field as
`sig.get(...)` delivers it. -/
structure SigBlock where
  algorithm : Option String
  digest : Option String
  deriving Repr, DecidableEq

/-- An artifact descriptor under the metadata `artifacts` mapping: the
`content-type` value when the key is present, and the `signature`
block when that key is present. -/
structure Artifact where
  contentType : Option String
  signature : Option SigBlock
  deriving Repr, DecidableEq

/-- Environment of the `mimetypes` machinery after `mimetypes.init`:
the loaded `types_map` (extension, MIME type) pairs and `guess_type`
as an oracle over paths. -/
structure MimeEnv where
  typesMap : List (String × String)
  guessType : String → Option String

/-- Association-list lookup of an existing file's bytes. -/
def lookupFile (fs : List (String × List Nat)) (p : String) :
    Option (List Nat) :=
  match fs.find? (fun q => q.1 = p) with
  | some q => some q.2
  | none => none

/-- Embedding of `CSARReader._validate_artifact` (reader.py lines
304-360).  `rawHash` abstracts `hashlib.new(algo, content)`'s raw
digest bytes, whose `hexdigest()` is its hex rendering.  The file must
exist under the extracted root; `content-type` must be present and
split on `/` into at least two pieces; the vendor-prefix convention,
the `types_map` reverse lookup and the `guess_type` comparison only
accumulate warnings.  A `signature` block requires truthy `algorithm`
and `digest` fields; the digest is base64-decoded and stripped, and
compared — as a Python 2 byte string — against the hexdigest text of
the computed hash. -/
def validate_artifact (env : MimeEnv)
    (rawHash : String → List Nat → List Nat) (rootDir : String)
    (fs : List (String × List Nat)) (name : String)
    (artifact : Artifact) : Except PyError (List String) :=
  let path := pyJoin rootDir name
  match lookupFile fs path with
  | none =>
    .error (.runtimeError
      ("Artifact \"" ++ name ++ "\" delcared, but file does not exist"))
  | some content =>
    match artifact.contentType with
    | none => .error (.runtimeError "Artifact missing \"content-type\"")
    | some ct =>
      let tstype := splitOnChar '/' ct.toList
      if tstype.length < 2 then
        .error (.runtimeError
          "Artifact content-type must comply with the \"type/subtype\" structure")
      else
        let warnings :=
          (if !strStartsWith (String.mk (tstype.getLastD [])) "vnd." then
            ["Artifact content-type subtype should start with \"vnd.\""]
          else []) ++
          (if (env.typesMap.filter (fun q => q.2 = ct)).length < 1 then
            ["Could not match artifact content-type with any known MIME type"]
          else []) ++
          (match env.guessType path with
           | none => ["Could not match artifact to a known MIME type"]
           | some _ => []) ++
          (if env.guessType path ≠ some ct then
            ["Artifact content-type does not match the artifacts MIME type"]
          else [])
        match artifact.signature with
        | none => .ok warnings
        | some sig =>
          if strFalsy sig.algorithm then
            .error (.runtimeError
              "Artifact signature delcared, but no algorithm was found")
          else if strFalsy sig.digest then
            .error (.runtimeError
              "Artifact signature delcared, but no digest was found")
          else
            let algo := sig.algorithm.getD ""
            let digestText := sig.digest.getD ""
            match b64decodeChars digestText.toList with
            | none => .error (.typeError "Incorrect padding")
            | some rawDecoded =>
              let digest := pyStripBytes rawDecoded
              let adigest := asciiBytes (hexEncode (rawHash algo content))
              if digest ≠ adigest then
                .error (.runtimeError "Artifact digest mismatch")
              else .ok warnings

/-- A parsed YAML value as the metadata validators see it: scalar
strings and numbers carried by their `str()` rendering, mappings as
association lists, sequences as lists, and `None` for an empty
document.  Numeric scalars are conflated with their rendering (the
validators only compare renderings against version literals and test
truthiness, and no claim involves a numeric-zero metadata value). -/
inductive MVal where
  | mstr (s : String)
  | mmap (entries : List (String × MVal))
  | mlist (elems : List MVal)
  | mnone

/-- Truthiness of a parsed value, for `if not metadata[key]`. -/
def mtruthy : MVal → Bool
  | .mstr s => !(s == "")
  | .mmap entries => !entries.isEmpty
  | .mlist elems => !elems.isEmpty
  | .mnone => false

/-- The `str()` rendering used by the version comparisons; containers
and `None` render with shapes that are never a version literal,
abstracted by tagged markers. -/
def pyStr : MVal → String
  | .mstr s => s
  | .mmap _ => "(dict)"
  | .mlist _ => "(list)"
  | .mnone => "None"

/-- Dictionary lookup (`dict.get`) on an association list. -/
def mGet (entries : List (String × MVal)) (k : String) : Option MVal :=
  match entries.find? (fun q => q.1 = k) with
  | some q => some q.2
  | none => none

/-- Dictionary key membership. -/
def mContains (entries : List (String × MVal)) (k : String) : Bool :=
  (mGet entries k).isSome

/-- Dictionary item assignment `d[k] = v`: replaces an existing key's
value in place, otherwise appends the pair. -/
def mSet (entries : List (String × MVal)) (k : String) (v : MVal) :
    List (String × MVal) :=
  if mContains entries k then
    entries.map (fun q => if q.1 = k then (k, v) else q)
  else entries ++ [(k, v)]

/-- Membership of a character list inside another, for Python's
substring `in`. -/
def isSubListChars (n : List Char) : List Char → Bool
  | [] => n.isEmpty
  | c :: rest => n.isPrefixOf (c :: rest) || isSubListChars n rest

/-- Embedding of Python's `k in v` on a parsed value: key membership
for dicts, element equality for lists, substring for strings, and
`TypeError` for `None`. -/
def mvalContains (v : MVal) (k : String) : Except PyError Bool :=
  match v with
  | .mmap entries => .ok (mContains entries k)
  | .mlist elems =>
    .ok (elems.any (fun e =>
      match e with
      | .mstr s => s = k
      | _ => false))
  | .mstr s => .ok (isSubListChars k.toList s.toList)
  | .mnone => .error (.typeError "argument of type NoneType is not iterable")

/-- Embedding of Python's `v[k]` with a string key: dict lookup
(`KeyError` when absent, guarded by the membership checks in the
validators), `TypeError` on strings, lists and `None`. -/
def mvalIndex (v : MVal) (k : String) : Except PyError MVal :=
  match v with
  | .mmap entries =>
    match mGet entries k with
    | some x => .ok x
    | none => .error (.typeError ("KeyError: " ++ k))
  | .mstr _ => .error (.typeError "string indices must be integers")
  | .mlist _ => .error (.typeError "list indices must be integers")
  | .mnone => .error (.typeError "NoneType object is unsubscriptable")

/-- Embedding of Python's `v.get(k)`: lookup on dicts,
`AttributeError` on every other parsed value. -/
def mvalGet (v : MVal) (k : String) : Except PyError (Option MVal) :=
  match v with
  | .mmap entries => .ok (mGet entries k)
  | _ => .error (.attributeError "get")

/-- Embedding of the recurring check pair `if key not in metadata:
raise Missing; if str(metadata[key]) != expected: raise Must-be`, the
version-key validation shape of both metadata validators. -/
def requireVersionKey (m : MVal) (key expectVal : String) :
    Except PyError Unit :=
  match mvalContains m key with
  | .error e => .error e
  | .ok b =>
    if !b then .error (.runtimeError ("Missing metadata \"" ++ key ++ "\""))
    else
      match mvalIndex m key with
      | .error e => .error e
      | .ok v =>
        if pyStr v ≠ expectVal then
          .error (.runtimeError
            ("Metadata \"" ++ key ++ "\" must be " ++ expectVal))
        else .ok ()

/-- Embedding of the recurring check `if key not in metadata or not
metadata[key]: raise Missing`, the mandatory-key validation shape of
both metadata validators. -/
def requireTruthyKey (m : MVal) (key : String) : Except PyError Unit :=
  match mvalContains m key with
  | .error e => .error e
  | .ok b =>
    if !b then .error (.runtimeError ("Missing metadata \"" ++ key ++ "\""))
    else
      match mvalIndex m key with
      | .error e => .error e
      | .ok v =>
        if !mtruthy v then
          .error (.runtimeError ("Missing metadata \"" ++ key ++ "\""))
        else .ok ()

/-- Embedding of `CSARReader._validate_metadata_file` (reader.py lines
193-231) after the file-existence guard, on the parsed YAML content:
metadata-file version must render `"1.0"`, CSAR version `"1.1"`,
`Created-By` and `Entry-Definitions` must be present and truthy; the
parsed record is stored as the CSAR metadata. -/
def validate_metadata_file (parsed : MVal) : Except PyError MVal :=
  match requireVersionKey parsed "TOSCA-Meta-File-Version" "1.0" with
  | .error e => .error e
  | .ok _ =>
  match requireVersionKey parsed "CSAR-Version" "1.1" with
  | .error e => .error e
  | .ok _ =>
  match requireTruthyKey parsed "Created-By" with
  | .error e => .error e
  | .ok _ =>
  match requireTruthyKey parsed "Entry-Definitions" with
  | .error e => .error e
  | .ok _ => .ok parsed

/-- Embedding of `CSARReader._validate_metadata_inline` (reader.py
lines 233-271).  `rootDefs` are the root-level `*.yaml` and `*.yml`
glob results with their parsed contents; exactly one must exist.  Its
`metadata` section must be present and truthy, carry a
`template_version` rendering `"1.1"`, and truthy `template_author`
and `template_name`; then the entry-definitions key is assigned the
root file's path inside the record. -/
def validate_metadata_inline (rootDefs : List (String × MVal)) :
    Except PyError MVal :=
  if rootDefs.length ≠ 1 then
    .error (.runtimeError
      "Exactly 1 YAML file must exist in the CSAR root directory")
  else
    match rootDefs.headD ("", MVal.mnone) with
    | (path, defData) =>
      match mvalGet defData "metadata" with
      | .error e => .error e
      | .ok mOpt =>
        let m := mOpt.getD MVal.mnone
        if !mtruthy m then .error (.runtimeError "Missing metadata section")
        else
          match requireVersionKey m "template_version" "1.1" with
          | .error e => .error e
          | .ok _ =>
          match requireTruthyKey m "template_author" with
          | .error e => .error e
          | .ok _ =>
          match requireTruthyKey m "template_name" with
          | .error e => .error e
          | .ok _ =>
            match m with
            | .mmap entries =>
              .ok (.mmap (mSet entries "Entry-Definitions" (.mstr path)))
            | _ =>
              .error (.typeError "object does not support item assignment")

/-- The extracted-archive state the reader validation pipeline sees:
whether the scratch destination directory exists, the parsed content
of `TOSCA-Metadata/TOSCA.meta` when that file exists, the root-level
YAML glob results, and the file paths existing under the extracted
root (relative to it; an absolute entry-definitions value overriding
the join is outside the states considered). -/
structure ReaderState where
  hasDest : Bool
  metaFile : Option MVal
  rootDefs : List (String × MVal)
  relFiles : List String

/-- Embedding of `CSARReader._validate_entry_definitions` (reader.py
lines 273-286): skipped for inline metadata; otherwise
`metadata.get('Entry-Definitions')` must name an existing file. -/
def validate_entry_definitions (st : ReaderState) (metadata : MVal) :
    Except PyError Unit :=
  match st.metaFile with
  | none => .ok ()
  | some _ =>
    match mvalGet metadata "Entry-Definitions" with
    | .error e => .error e
    | .ok entryOpt =>
      match entryOpt with
      | some (.mstr entry) =>
        if listHasStr st.relFiles entry then .ok ()
        else
          .error (.runtimeError
            ("\"Entry-Definitions\" points to \"" ++ entry ++
             "\", but the file does not exist"))
      | some _ => .error (.typeError "coercing to Unicode")
      | none => .error (.typeError "coercing to Unicode")

/-- The attribute table of `nfvo_packager/constants.py` (lines 21-33):
exactly the names that module defines. -/
def constantsDefs : List (String × String) :=
  [("META_FILE", "TOSCA-Metadata/TOSCA.meta"),
   ("META_FILE_VERSION_KEY", "TOSCA-Meta-File-Version"),
   ("META_CSAR_VERSION_KEY", "CSAR-Version"),
   ("META_CREATED_BY_KEY", "Created-By"),
   ("META_ENTRY_DEFINITIONS_KEY", "Entry-Definitions"),
   ("META_TMPL_NAME_KEY", "template_name"),
   ("META_TMPL_AUTHOR_KEY", "template_author"),
   ("META_TMPL_VERSION_KEY", "template_version"),
   ("META_ENTRY_FILE", "definitions/tosca_elk.yaml")]

/-- Embedding of an attribute access `constants.<name>`: defined names
yield their value, anything else raises `AttributeError`. -/
def constantsAttr (name : String) : Except PyError String :=
  match constantsDefs.find? (fun q => q.1 = name) with
  | some q => .ok q.2
  | none => .error (.attributeError name)

/-- Embedding of `CSARReader._validate_artifacts` (reader.py lines
288-302): the first statement evaluates
`constants.META_MIMETYPES_GLOB`, a name `constants.py` does not
define, so the stage raises `AttributeError` before anything else; the
MIME-table initialization and per-artifact loop that would follow are
abstracted by `artifactsStep`, which is never reached. -/
def validate_artifacts_stage (artifactsStep : Unit → Except PyError Unit) :
    Except PyError Unit :=
  match constantsAttr "META_MIMETYPES_GLOB" with
  | .error e => .error e
  | .ok _ => artifactsStep ()

/-- The metadata stage of `CSARReader._validate`: file-based when the
metadata file exists, inline otherwise. -/
def metadata_stage (st : ReaderState) : Except PyError MVal :=
  match st.metaFile with
  | some parsed => validate_metadata_file parsed
  | none => validate_metadata_inline st.rootDefs

/-- Embedding of `CSARReader._validate` (reader.py lines 175-191):
destination check, metadata validation (file-based or inline), entry
definitions, then artifacts.  Returns the validated metadata record. -/
def reader_validate (st : ReaderState)
    (artifactsStep : Unit → Except PyError Unit) : Except PyError MVal :=
  if !st.hasDest then .error (.runtimeError "Missing CSAR contents")
  else
    match metadata_stage st with
    | .error e => .error e
    | .ok metadata =>
      match validate_entry_definitions st metadata with
      | .error e => .error e
      | .ok _ =>
        match validate_artifacts_stage artifactsStep with
        | .error e => .error e
        | .ok _ => .ok metadata

/-- Embedding of `CSARWriter.__init__` with `create_metadata`
(writer.py lines 46-79, 156-166): after the source-existence check and
the zip step, the metadata record with the four fixed keys is written
into the archive at the metadata path, the archive is copied to the
destination, and a `CSARReader` is constructed over it, whose
validation error — if any — surfaces unchanged from the constructor. -/
def writer_build (sourceExists : Bool) (author entry : String)
    (relFiles : List String) (rootDefs : List (String × MVal))
    (artifactsStep : Unit → Except PyError Unit) : Except PyError MVal :=
  if !sourceExists then
    .error (.runtimeError "CSAR source path does not exist")
  else
    reader_validate
      ⟨true,
       some (.mmap
         [("TOSCA-Meta-File-Version", .mstr "1.0"),
          ("CSAR-Version", .mstr "1.1"),
          ("Created-By", .mstr author),
          ("Entry-Definitions", .mstr entry)]),
       rootDefs, relFiles⟩
      artifactsStep

/-! ### Theorems -/

/-- Claim C1: the spec requires a path-traversal entry (a `..` segment
escaping the target directory) to be rejected with `InvalidFormat`.
The code has no such check: on a ZIP whose sole entry is named
`../evil.txt`, `CSARReader._extract` succeeds without any error, the
entry being silently rewritten to `evil.txt` inside the scratch
directory by the interpreter's member sanitization (and, on
pre-sanitization interpreters, written outside the scratch directory
altogether).  No `InvalidFormat` rejection happens on any path. -/
theorem c1_traversal_entry_not_rejected :
    csar_extract (some "/tmp/pkg.zip")
      ⟨true, [⟨"../evil.txt", [42]⟩]⟩ "/tmp/scratch" =
      .ok [("/tmp/scratch/evil.txt", [42])] := by decide

/-- The imports loader succeeds exactly when every import resolves. -/
theorem importsLoader_ok_iff (resolveImport : String → Bool)
    (l : List String) :
    importsLoader resolveImport l = .ok () ↔ l.all resolveImport = true := by
  induction l with
  | nil => simp [importsLoader]
  | cons a rest ih =>
    by_cases h : resolveImport a = true <;> simp [importsLoader, h, ih]

/-- Claim C3, counterexample: a root template whose `imports` list is
empty does cause validation to fail — `imports.remove(...)` raises
`ValueError` because the base-profile literal is not in the list. -/
theorem c3_empty_imports_list_fails :
    validate_imports (fun _ => true) (some []) =
      .error (.valueError "list.remove(x): x not in list") := by decide

/-- Claim C3, amended: a root template with no `imports` key never
fails; a present `imports` list that does not contain the well-known
base-profile literal (in particular the empty list) raises `ValueError`
from `list.remove`; when the literal is present, its first occurrence
is dropped and validation succeeds exactly when every remaining import
resolves. -/
theorem c3_imports_amended (resolveImport : String → Bool)
    (l : List String) :
    validate_imports resolveImport none = .ok () ∧
    (l.any (fun q => q = baseProfileImport) = false →
      validate_imports resolveImport (some l) =
        .error (.valueError "list.remove(x): x not in list")) ∧
    (l.any (fun q => q = baseProfileImport) = true →
      (validate_imports resolveImport (some l) = .ok () ↔
        (removeFirst l baseProfileImport).all resolveImport = true)) := by
  refine ⟨rfl, ?_, ?_⟩
  · intro h
    simp [validate_imports, pyRemove, h]
  · intro h
    simp only [validate_imports, pyRemove, h, if_true]
    by_cases he : (removeFirst l baseProfileImport).isEmpty = true
    · rw [List.isEmpty_iff] at he
      simp [he]
    · rw [Bool.not_eq_true, ← Bool.not_eq_true] at he
      simp only [he, if_false]
      exact importsLoader_ok_iff resolveImport (removeFirst l baseProfileImport)

/-- Witness for `c3_imports_amended` at a concrete input: a one-element
imports list lacking the base-profile literal fails with `ValueError`. -/
theorem c3_imports_amended_witness :
    validate_imports (fun _ => true) (some ["definitions/extra.yaml"]) =
      .error (.valueError "list.remove(x): x not in list") :=
  (c3_imports_amended (fun _ => true) ["definitions/extra.yaml"]).2.1 (by decide)

/-- Claim C4: the function's own docstring states that in a CSAR
`resource_file` cannot be an absolute path, and the spec says absolute
paths are never valid; but `os.path.join` discards the leading
components when the last one is absolute, so an absolute reference is
accepted whenever a file exists at that absolute location — here
`/etc/hosts` outside the extraction directory `/tmp/scratch` is
accepted as a valid mandatory reference. -/
theorem c4_absolute_path_reference_accepted :
    validate_external_reference ⟨fun _ => false, fun _ => false⟩
      ["/etc/hosts"] "/tmp/scratch" "service.yaml" "/etc/hosts" true =
      .ok () := by decide

/-- Claim C5, counterexample: an interface-operation value given as a
bare string is not always advisory — when the string parses as a URL
that is not accessible, the walk aborts with an error even though
`raise_exc` is `False`, because the URL branch raises before the
`raise_exc` flag is consulted. -/
theorem c5_url_operation_aborts :
    validate_external_references ⟨fun _ => true, fun _ => false⟩
      (fun _ => true) [] "/tmp/scratch" (some "service.yaml")
      ⟨none,
       some [("node1",
              ⟨none,
               some [("Standard",
                      [("create", .ostr "http://host/op.sh")])]⟩)]⟩ =
      .error (.runtimeError
        "The resource at \"http://host/op.sh\" cannot be accessed") := by
  decide

/-- Claim C5, amended: a bare-string interface operation that does not
parse as a URL is advisory — resolution is attempted but can never
abort the walk (`raise_exc=False` suppresses the missing-file raise) —
while a URL-shaped operation string aborts when unreachable; artifact
references and `implementation` values are resolved with
`raise_exc=True`, so a non-URL value whose resolved path does not exist
aborts with an error naming the reference. -/
theorem c5_operation_advisory_amended (urls : UrlOracle) (fs : List String)
    (tempDir tplFile r : String) :
    (urls.validateUrl r = false →
      validate_external_reference urls fs tempDir tplFile r false = .ok ()) ∧
    (urls.validateUrl r = true → urls.urlAccessible r = false →
      validate_external_reference urls fs tempDir tplFile r false =
        .error (.runtimeError
          ("The resource at \"" ++ r ++ "\" cannot be accessed"))) ∧
    (urls.validateUrl r = false →
      listHasStr fs (pyJoin3 tempDir (dirname tplFile) r) = false →
      validate_external_reference urls fs tempDir tplFile r true =
        .error (.runtimeError
          ("The resource \"" ++ r ++ "\" does not exist"))) ∧
    (validate_operation urls fs tempDir tplFile (.ostr r) =
      validate_external_reference urls fs tempDir tplFile r false) ∧
    (validate_node_artifact urls fs tempDir tplFile ("a", .astr r) =
      validate_external_reference urls fs tempDir tplFile r true) ∧
    (validate_operation urls fs tempDir tplFile (.omap (some r)) =
      validate_external_reference urls fs tempDir tplFile r true) := by
  refine ⟨?_, ?_, ?_, rfl, rfl, rfl⟩
  · intro h
    by_cases hf : listHasStr fs (pyJoin3 tempDir (dirname tplFile) r) = true <;>
      simp [validate_external_reference, h, hf]
  · intro h ha
    simp [validate_external_reference, h, ha]
  · intro h hf
    simp [validate_external_reference, h, hf]

/-- Witness for `c5_operation_advisory_amended` at a concrete input: a
non-URL operation string whose file is missing is still accepted. -/
theorem c5_operation_advisory_amended_witness :
    validate_external_reference ⟨fun _ => false, fun _ => false⟩ []
      "/tmp/scratch" "service.yaml" "scripts/none.sh" false = .ok () :=
  (c5_operation_advisory_amended ⟨fun _ => false, fun _ => false⟩ []
    "/tmp/scratch" "service.yaml" "scripts/none.sh").1 rfl

/-- A bitwise-or of naturals vanishes exactly when both sides do. -/
theorem nat_or_eq_zero_iff (a b : Nat) : a ||| b = 0 ↔ a = 0 ∧ b = 0 := by
  constructor
  · intro h
    have ha : ∀ i, a.testBit i = false := by
      intro i
      have := congrArg (fun n => Nat.testBit n i) h
      simp [Nat.testBit_lor] at this
      exact this.1
    have hb : ∀ i, b.testBit i = false := by
      intro i
      have := congrArg (fun n => Nat.testBit n i) h
      simp [Nat.testBit_lor] at this
      exact this.2
    exact ⟨Nat.eq_of_testBit_eq (fun i => by simp [ha i]),
           Nat.eq_of_testBit_eq (fun i => by simp [hb i])⟩
  · rintro ⟨h1, h2⟩
    simp [h1, h2]

/-- Characters with equal code points are equal. -/
theorem char_toNat_inj {c d : Char} (h : c.toNat = d.toNat) : c = d := by
  have hc := Char.ofNat_toNat c
  rw [h, Char.ofNat_toNat d] at hc
  exact hc.symm

/-- The accumulated or-of-xors vanishes exactly when the accumulator is
zero and every zipped pair is equal. -/
theorem foldl_or_xor_eq_zero (l : List (Char × Char)) (acc : Nat) :
    (l.foldl (fun acc p => acc ||| (p.1.toNat ^^^ p.2.toNat)) acc = 0) ↔
      (acc = 0 ∧ ∀ p ∈ l, p.1 = p.2) := by
  induction l generalizing acc with
  | nil => simp
  | cons p rest ih =>
    rw [List.foldl_cons, ih, nat_or_eq_zero_iff]
    constructor
    · rintro ⟨⟨hacc, hxor⟩, hrest⟩
      refine ⟨hacc, ?_⟩
      intro q hq
      rcases List.mem_cons.mp hq with h | h
      · rw [h]
        exact char_toNat_inj (Nat.xor_eq_zero.mp hxor)
      · exact hrest q h
    · rintro ⟨hacc, hall⟩
      refine ⟨⟨hacc, ?_⟩, ?_⟩
      · exact Nat.xor_eq_zero.mpr (congrArg Char.toNat (hall p (by simp)))
      · intro q hq
        exact hall q (List.mem_cons_of_mem p hq)

/-- Lists whose zipped pairs agree and whose lengths agree are equal. -/
theorem eq_of_zip_pointwise (la : List Char) :
    ∀ lb : List Char, la.length = lb.length →
      (∀ p ∈ la.zip lb, p.1 = p.2) → la = lb := by
  induction la with
  | nil =>
    intro lb hlen _
    cases lb with
    | nil => rfl
    | cons b rb => simp at hlen
  | cons a ra ih =>
    intro lb hlen h
    cases lb with
    | nil => simp at hlen
    | cons b rb =>
      have h1 : a = b := h (a, b) (by simp [List.zip_cons_cons])
      have h2 : ra = rb := by
        refine ih rb (by simpa using hlen) ?_
        intro p hp
        exact h p (by simp [List.zip_cons_cons, hp])
      rw [h1, h2]

/-- Pairs zipped from a list with itself are diagonal. -/
theorem zip_self_diag {l : List Char} {p : Char × Char}
    (hp : p ∈ l.zip l) : p.1 = p.2 := by
  induction l with
  | nil => simp at hp
  | cons c rest ih =>
    rw [List.zip_cons_cons] at hp
    rcases List.mem_cons.mp hp with h | h
    · rw [h]
    · exact ih h

/-- Strings with equal character lists are equal. -/
theorem string_toList_inj {a b : String} (h : a.toList = b.toList) :
    a = b := by
  cases a
  cases b
  simp [String.toList] at h
  rw [h]

/-- The embedded `hmac.compare_digest` decides string equality. -/
theorem compare_digest_eq_iff (a b : String) :
    compare_digest a b = true ↔ a = b := by
  unfold compare_digest
  rw [Bool.and_eq_true, beq_iff_eq, beq_iff_eq, foldl_or_xor_eq_zero]
  constructor
  · rintro ⟨hlen, -, hpt⟩
    exact string_toList_inj (eq_of_zip_pointwise a.toList b.toList hlen hpt)
  · rintro rfl
    exact ⟨rfl, rfl, fun p hp => zip_self_diag hp⟩

/-- A dropWhile whose predicate holds nowhere is the identity. -/
theorem dropWhile_eq_self_of_none {p : Char → Bool} (l : List Char)
    (h : ∀ c ∈ l, p c = false) : l.dropWhile p = l := by
  cases l with
  | nil => rfl
  | cons c rest => simp [List.dropWhile_cons, h c (by simp)]

/-- Stripping is the identity on whitespace-free character lists. -/
theorem pyStripChars_eq_self (l : List Char)
    (h : ∀ c ∈ l, isPyWsChar c = false) : pyStripChars l = l := by
  unfold pyStripChars
  rw [dropWhile_eq_self_of_none l h]
  rw [dropWhile_eq_self_of_none l.reverse
    (fun c hc => h c (List.mem_reverse.mp hc))]
  exact List.reverse_reverse l

/-- Hex digits are never Python whitespace. -/
theorem hexDigitChar_not_ws (n : Nat) : isPyWsChar (hexDigitChar n) = false := by
  unfold hexDigitChar
  split <;> decide

/-- Hex renderings contain no Python whitespace. -/
theorem hexEncode_no_ws (bs : List Nat) :
    ∀ c ∈ hexEncodeChars bs, isPyWsChar c = false := by
  intro c hc
  unfold hexEncodeChars at hc
  rw [List.mem_flatten] at hc
  obtain ⟨l, hl, hcl⟩ := hc
  rw [List.mem_map] at hl
  obtain ⟨b, _, rfl⟩ := hl
  unfold hexByteChars at hcl
  rcases List.mem_cons.mp hcl with h | h
  · rw [h]; exact hexDigitChar_not_ws _
  · rcases List.mem_cons.mp h with h2 | h2
    · rw [h2]; exact hexDigitChar_not_ws _
    · simp at h2

/-- Stripping a hexdigest string is the identity. -/
theorem pyStrip_hexEncode (bs : List Nat) :
    pyStripStr (hexEncode bs) = hexEncode bs := by
  unfold pyStripStr hexEncode
  have ht : (String.mk (hexEncodeChars bs)).toList = hexEncodeChars bs := rfl
  rw [ht, pyStripChars_eq_self _ (hexEncode_no_ws bs)]

/-- Claim C6: verifying with the digest returned by `create_signature`
over the same archive and key yields `true`; verifying with a different
key or altered archive — any combination whose recomputed digest
differs — yields `false` without raising; supplying neither an inline
digest nor a signature-file source raises; and the comparison primitive
used is `hmac.compare_digest`, whose whole-scan accumulate-and-compare
semantics decides exactly string equality. -/
theorem c6_sign_verify_roundtrip (rawHmac : List Nat → List Nat → List Nat)
    (archive archive2 key key2 : List Nat) (d : String) :
    (create_signature rawHmac (some archive) key = .ok d →
      verify_signature rawHmac (some archive) key (some d) none = .ok true) ∧
    (create_signature rawHmac (some archive) key = .ok d →
      hexEncode (rawHmac key2 archive2) ≠ d →
      verify_signature rawHmac (some archive2) key2 (some d) none =
        .ok false) ∧
    (verify_signature rawHmac (some archive) key none none =
      .error (.runtimeError "\"digest\" or \"sigfile\" must be set")) ∧
    (∀ a b : String, compare_digest a b = true ↔ a = b) := by
  refine ⟨?_, ?_, rfl, compare_digest_eq_iff⟩
  · intro h
    simp only [create_signature, Except.ok.injEq] at h
    subst h
    have hv : verify_signature rawHmac (some archive) key
        (some (hexEncode (rawHmac key archive))) none =
        .ok (compare_digest (pyStripStr (hexEncode (rawHmac key archive)))
          (hexEncode (rawHmac key archive))) := rfl
    rw [hv, pyStrip_hexEncode]
    exact congrArg Except.ok ((compare_digest_eq_iff _ _).mpr rfl)
  · intro h hne
    simp only [create_signature, Except.ok.injEq] at h
    subst h
    have hv : verify_signature rawHmac (some archive2) key2
        (some (hexEncode (rawHmac key archive))) none =
        .ok (compare_digest (pyStripStr (hexEncode (rawHmac key archive)))
          (hexEncode (rawHmac key2 archive2))) := rfl
    rw [hv, pyStrip_hexEncode]
    cases hcmp : compare_digest (hexEncode (rawHmac key archive))
        (hexEncode (rawHmac key2 archive2)) with
    | false => rfl
    | true =>
      exact ((hne (((compare_digest_eq_iff _ _).mp hcmp).symm)).elim)

/-- Witness for `c6_sign_verify_roundtrip` at a concrete input: with
the keyed hash instantiated as key-prepend, signing archive `[1, 2]`
with key `[7]` verifies, and verifying the same digest with key `[9]`
returns `false`. -/
theorem c6_sign_verify_roundtrip_witness :
    verify_signature (fun k a => k ++ a) (some [1, 2]) [7]
      (some (hexEncode [7, 1, 2])) none = .ok true ∧
    verify_signature (fun k a => k ++ a) (some [1, 2]) [9]
      (some (hexEncode [7, 1, 2])) none = .ok false := by
  constructor
  · exact (c6_sign_verify_roundtrip (fun k a => k ++ a) [1, 2] [1, 2] [7] [9]
      (hexEncode [7, 1, 2])).1 rfl
  · exact (c6_sign_verify_roundtrip (fun k a => k ++ a) [1, 2] [1, 2] [7] [9]
      (hexEncode [7, 1, 2])).2.1 rfl (by decide)

/-- Claim C9: for a declared artifact, a missing backing file is a hard
failure, an absent content-type is a hard failure, a content-type that
does not split into `type/subtype` shape is a hard failure, while the
vendor-prefix convention, the MIME-table reverse lookup and the
guessed-MIME comparison only accumulate warnings: for every MIME
environment the validation of a well-formed unsigned artifact
succeeds. -/
theorem c9_artifact_hard_vs_advisory (env : MimeEnv)
    (rawHash : String → List Nat → List Nat) (rootDir : String)
    (fs : List (String × List Nat)) (name ct : String)
    (content : List Nat) :
    (lookupFile fs (pyJoin rootDir name) = none →
      ∀ a : Artifact, validate_artifact env rawHash rootDir fs name a =
        .error (.runtimeError
          ("Artifact \"" ++ name ++ "\" delcared, but file does not exist"))) ∧
    (lookupFile fs (pyJoin rootDir name) = some content →
      validate_artifact env rawHash rootDir fs name ⟨none, none⟩ =
        .error (.runtimeError "Artifact missing \"content-type\"")) ∧
    (lookupFile fs (pyJoin rootDir name) = some content →
      (splitOnChar '/' ct.toList).length < 2 →
      validate_artifact env rawHash rootDir fs name ⟨some ct, none⟩ =
        .error (.runtimeError
          "Artifact content-type must comply with the \"type/subtype\" structure")) ∧
    (lookupFile fs (pyJoin rootDir name) = some content →
      ¬ (splitOnChar '/' ct.toList).length < 2 →
      isOkE (validate_artifact env rawHash rootDir fs name ⟨some ct, none⟩) =
        true) := by
  refine ⟨?_, ?_, ?_, ?_⟩
  · intro h a
    simp [validate_artifact, h]
  · intro h
    simp [validate_artifact, h]
  · intro h hlen
    have hlen2 : (splitOnChar '/' ct.data).length < 2 := hlen
    simp [validate_artifact, h, hlen2]
  · intro h hlen
    have hlen2 : ¬ (splitOnChar '/' ct.data).length < 2 := hlen
    simp [validate_artifact, h, isOkE, if_neg hlen2]

/-- Witness for `c9_artifact_hard_vs_advisory` at a concrete input: an
unsigned artifact with an existing file and a two-piece content-type
validates for an empty MIME environment (only warnings arise). -/
theorem c9_artifact_hard_vs_advisory_witness :
    isOkE (validate_artifact ⟨[], fun _ => none⟩ (fun _ _ => []) "/r"
      [("/r/a.sh", [1])] "a.sh" ⟨some "application/x-sh", none⟩) = true :=
  (c9_artifact_hard_vs_advisory ⟨[], fun _ => none⟩ (fun _ _ => []) "/r"
    [("/r/a.sh", [1])] "a.sh" "application/x-sh" [1]).2.2.2
    (by decide) (by decide)

/-- Claim C2, counterexample: per the claim (and the spec's data-model
section) the digest field is the standard base64 encoding of the raw
digest bytes and an uncorrupted artifact verifies successfully.  Take
an artifact whose computed raw digest is the byte `0xAB = 171` and
whose digest field is exactly `base64([171]) = "qw=="`: the code
compares the decoded bytes `[171]` against the hexdigest *text* `"ab"`
(bytes `[97, 98]`), so the uncorrupted artifact is rejected with a
digest mismatch. -/
theorem c2_raw_digest_base64_rejected :
    validate_artifact ⟨[], fun _ => none⟩ (fun _ _ => [171]) "/r"
      [("/r/a.bin", [7])] "a.bin"
      ⟨some "application/x", some ⟨some "sha256", some "qw=="⟩⟩ =
      .error (.runtimeError "Artifact digest mismatch") := by decide

/-- Claim C2, amended: a signature block with a falsy algorithm or
digest field fails; otherwise the digest field is base64-decoded and
stripped, and validation succeeds exactly when those bytes equal the
ASCII bytes of the *hexadecimal rendering* of the computed digest —
that is, the digest field must be the base64 encoding of the hexdigest
string, not of the raw digest bytes; whenever the decoded digest
differs from that rendering (in particular after any corruption that
changes the computed digest) the result is the digest-mismatch
error. -/
theorem c2_digest_check_amended (env : MimeEnv)
    (rawHash : String → List Nat → List Nat) (rootDir : String)
    (fs : List (String × List Nat)) (name ct algo dig : String)
    (content raw : List Nat)
    (hfile : lookupFile fs (pyJoin rootDir name) = some content)
    (hct : ¬ (splitOnChar '/' ct.toList).length < 2) :
    (∀ s : SigBlock, strFalsy s.algorithm = true →
      validate_artifact env rawHash rootDir fs name ⟨some ct, some s⟩ =
        .error (.runtimeError
          "Artifact signature delcared, but no algorithm was found")) ∧
    (∀ s : SigBlock, strFalsy s.algorithm = false → strFalsy s.digest = true →
      validate_artifact env rawHash rootDir fs name ⟨some ct, some s⟩ =
        .error (.runtimeError
          "Artifact signature delcared, but no digest was found")) ∧
    (algo ≠ "" → dig ≠ "" → b64decodeChars dig.toList = some raw →
      (isOkE (validate_artifact env rawHash rootDir fs name
          ⟨some ct, some ⟨some algo, some dig⟩⟩) = true ↔
        pyStripBytes raw = asciiBytes (hexEncode (rawHash algo content)))) ∧
    (algo ≠ "" → dig ≠ "" → b64decodeChars dig.toList = some raw →
      pyStripBytes raw ≠ asciiBytes (hexEncode (rawHash algo content)) →
      validate_artifact env rawHash rootDir fs name
        ⟨some ct, some ⟨some algo, some dig⟩⟩ =
        .error (.runtimeError "Artifact digest mismatch")) := by
  have h2 : 2 ≤ (splitOnChar '/' ct.data).length := Nat.not_lt.mp hct
  refine ⟨?_, ?_, ?_, ?_⟩
  · intro s hs
    simp [validate_artifact, hfile, h2, hs]
  · intro s hs1 hs2
    simp [validate_artifact, hfile, h2, hs1, hs2]
  · intro ha hd hdec
    have hdec2 : b64decodeChars dig.data = some raw := hdec
    have hsa : strFalsy (some algo) = false := by simp [strFalsy, ha]
    have hsd : strFalsy (some dig) = false := by simp [strFalsy, hd]
    have hct2 : ¬ (splitOnChar '/' ct.data).length < 2 := hct
    by_cases heq : pyStripBytes raw = asciiBytes (hexEncode (rawHash algo content))
    · simp [validate_artifact, hfile, hsa, hsd, hdec2, heq, isOkE, if_neg hct2]
    · simp [validate_artifact, hfile, hsa, hsd, hdec2, heq, isOkE, if_neg hct2]
  · intro ha hd hdec hne
    have hdec2 : b64decodeChars dig.data = some raw := hdec
    have hsa : strFalsy (some algo) = false := by simp [strFalsy, ha]
    have hsd : strFalsy (some dig) = false := by simp [strFalsy, hd]
    simp [validate_artifact, hfile, h2, hsa, hsd, hdec2, hne]

/-- Witness for `c2_digest_check_amended` at a concrete input: with the
digest field set to `base64("ab") = "YWI="` — the base64 of the
hexdigest text rather than of the raw digest byte `171` — validation
succeeds. -/
theorem c2_digest_check_amended_witness :
    isOkE (validate_artifact ⟨[], fun _ => none⟩ (fun _ _ => [171]) "/r"
      [("/r/a.bin", [7])] "a.bin"
      ⟨some "application/x", some ⟨some "sha256", some "YWI="⟩⟩) = true :=
  ((c2_digest_check_amended ⟨[], fun _ => none⟩ (fun _ _ => [171]) "/r"
    [("/r/a.bin", [7])] "a.bin" "application/x" "sha256" "YWI=" [7] [97, 98]
    (by decide) (by decide)).2.2.1
    (by decide) (by decide) (by decide)).mpr (by decide)

/-- A version-key check on a dict succeeds exactly when the key maps to
a value rendering the expected literal. -/
theorem requireVersionKey_ok_iff (entries : List (String × MVal))
    (k val : String) :
    requireVersionKey (.mmap entries) k val = .ok () ↔
      (∃ v, mGet entries k = some v ∧ pyStr v = val) := by
  cases hv : mGet entries k with
  | none => simp [requireVersionKey, mvalContains, mvalIndex, mContains, hv]
  | some v =>
    by_cases hpv : pyStr v = val <;>
      simp [requireVersionKey, mvalContains, mvalIndex, mContains, hv, hpv]

/-- A mandatory-key check on a dict succeeds exactly when the key maps
to a truthy value. -/
theorem requireTruthyKey_ok_iff (entries : List (String × MVal))
    (k : String) :
    requireTruthyKey (.mmap entries) k = .ok () ↔
      (∃ v, mGet entries k = some v ∧ mtruthy v = true) := by
  cases hv : mGet entries k with
  | none => simp [requireTruthyKey, mvalContains, mvalIndex, mContains, hv]
  | some v =>
    by_cases htv : mtruthy v = true <;>
      simp [requireTruthyKey, mvalContains, mvalIndex, mContains, hv, htv]

/-- On a single root file whose document carries a dict `metadata`
section, the inline validator reduces to the truthiness check followed
by the three key checks and the entry-point assignment. -/
theorem validate_metadata_inline_singleton (path : String)
    (entries : List (String × MVal)) :
    validate_metadata_inline [(path, .mmap [("metadata", .mmap entries)])] =
      (if entries.isEmpty then
        .error (.runtimeError "Missing metadata section")
      else
        match requireVersionKey (.mmap entries) "template_version" "1.1" with
        | .error e => .error e
        | .ok _ =>
        match requireTruthyKey (.mmap entries) "template_author" with
        | .error e => .error e
        | .ok _ =>
        match requireTruthyKey (.mmap entries) "template_name" with
        | .error e => .error e
        | .ok _ =>
          .ok (.mmap (mSet entries "Entry-Definitions" (.mstr path)))) := by
  have hL : validate_metadata_inline
      [(path, .mmap [("metadata", .mmap entries)])] =
      (if !mtruthy (.mmap entries) then
        .error (.runtimeError "Missing metadata section")
      else
        match requireVersionKey (.mmap entries) "template_version" "1.1" with
        | .error e => .error e
        | .ok _ =>
        match requireTruthyKey (.mmap entries) "template_author" with
        | .error e => .error e
        | .ok _ =>
        match requireTruthyKey (.mmap entries) "template_name" with
        | .error e => .error e
        | .ok _ =>
          .ok (.mmap (mSet entries "Entry-Definitions" (.mstr path)))) := rfl
  rw [hL]
  simp only [mtruthy, Bool.not_not]

/-- Claim C8: without the dedicated metadata file, validation fails
unless exactly one root-level YAML file exists; on that sole file with
a dict `metadata` section, validation succeeds exactly when the
section is non-empty with `template_version` rendering `"1.1"` and
truthy `template_author` and `template_name`, and the resulting record
has the entry-definitions key assigned that root file itself. -/
theorem c8_inline_metadata_characterization (defs : List (String × MVal))
    (path : String) (entries : List (String × MVal)) :
    (defs.length ≠ 1 →
      validate_metadata_inline defs =
        .error (.runtimeError
          "Exactly 1 YAML file must exist in the CSAR root directory")) ∧
    ((entries.isEmpty = false ∧
      (∃ v, mGet entries "template_version" = some v ∧ pyStr v = "1.1") ∧
      (∃ v, mGet entries "template_author" = some v ∧ mtruthy v = true) ∧
      (∃ v, mGet entries "template_name" = some v ∧ mtruthy v = true)) →
      validate_metadata_inline [(path, .mmap [("metadata", .mmap entries)])] =
        .ok (.mmap (mSet entries "Entry-Definitions" (.mstr path)))) ∧
    (¬ (entries.isEmpty = false ∧
      (∃ v, mGet entries "template_version" = some v ∧ pyStr v = "1.1") ∧
      (∃ v, mGet entries "template_author" = some v ∧ mtruthy v = true) ∧
      (∃ v, mGet entries "template_name" = some v ∧ mtruthy v = true)) →
      isOkE (validate_metadata_inline
        [(path, .mmap [("metadata", .mmap entries)])]) = false) := by
  refine ⟨?_, ?_, ?_⟩
  · intro h
    simp only [validate_metadata_inline]
    rw [if_pos h]
  · rintro ⟨h0, ⟨v, hv, hpv⟩, ⟨a, ha, hta⟩, ⟨n, hn, htn⟩⟩
    rw [validate_metadata_inline_singleton]
    rw [if_neg (by simp [h0])]
    rw [(requireVersionKey_ok_iff entries "template_version" "1.1").mpr
      ⟨v, hv, hpv⟩]
    rw [(requireTruthyKey_ok_iff entries "template_author").mpr ⟨a, ha, hta⟩]
    rw [(requireTruthyKey_ok_iff entries "template_name").mpr ⟨n, hn, htn⟩]
  · intro hbad
    rw [validate_metadata_inline_singleton]
    by_cases h0 : entries.isEmpty = true
    · rw [if_pos h0]
      rfl
    · rw [if_neg h0]
      cases hv : requireVersionKey (.mmap entries) "template_version" "1.1" with
      | error e => rfl
      | ok u =>
        cases u
        cases ha : requireTruthyKey (.mmap entries) "template_author" with
        | error e => rfl
        | ok u2 =>
          cases u2
          cases hn : requireTruthyKey (.mmap entries) "template_name" with
          | error e => rfl
          | ok u3 =>
            cases u3
            exfalso
            apply hbad
            refine ⟨by simpa using h0, ?_, ?_, ?_⟩
            · exact (requireVersionKey_ok_iff entries "template_version"
                "1.1").mp hv
            · exact (requireTruthyKey_ok_iff entries "template_author").mp ha
            · exact (requireTruthyKey_ok_iff entries "template_name").mp hn

/-- Witness for `c8_inline_metadata_characterization` at a concrete
input: a sole root file with a well-formed inline metadata section
validates and receives that file as entry point. -/
theorem c8_inline_metadata_characterization_witness :
    validate_metadata_inline
      [("/scratch/service.yaml", .mmap [("metadata", .mmap
        [("template_version", .mstr "1.1"),
         ("template_author", .mstr "Example"),
         ("template_name", .mstr "demo")])])] =
      .ok (.mmap (mSet
        [("template_version", .mstr "1.1"),
         ("template_author", .mstr "Example"),
         ("template_name", .mstr "demo")]
        "Entry-Definitions" (.mstr "/scratch/service.yaml"))) :=
  (c8_inline_metadata_characterization [] "/scratch/service.yaml"
    [("template_version", .mstr "1.1"),
     ("template_author", .mstr "Example"),
     ("template_name", .mstr "demo")]).2.1
    ⟨rfl, ⟨.mstr "1.1", rfl, rfl⟩, ⟨.mstr "Example", rfl, rfl⟩,
     ⟨.mstr "demo", rfl, rfl⟩⟩

/-- Claim C10: the validation pipeline invoked by every `CSARReader`
construction never completes successfully — whatever the extracted
state and whatever the (never-reached) per-artifact loop would do, the
artifact stage's first step dereferences
`constants.META_MIMETYPES_GLOB`, which `constants.py` does not define,
so the pipeline ends in an error on every path. -/
theorem c10_reader_never_validates (st : ReaderState)
    (artifactsStep : Unit → Except PyError Unit) :
    isOkE (reader_validate st artifactsStep) = false := by
  unfold reader_validate
  by_cases hd : st.hasDest = true
  · simp only [hd, Bool.not_true, Bool.false_eq_true, if_false]
    cases hm : metadata_stage st with
    | error e => rfl
    | ok metadata =>
      dsimp only
      cases he : validate_entry_definitions st metadata with
      | error e => rfl
      | ok u =>
        dsimp only
        have ha : validate_artifacts_stage artifactsStep =
            .error (.attributeError "META_MIMETYPES_GLOB") := rfl
        rw [ha]
        rfl
  · have hd2 : st.hasDest = false := by simpa using hd
    simp [hd2, isOkE]

/-- Claim C7: building from a well-formed source directory with author
`"Example"` and entry `"service.yaml"` never yields a readable
archive: the builder's self-validating reader raises
`AttributeError('META_MIMETYPES_GLOB')` on its artifact stage, the
builder surfaces it, and the claimed metadata round trip can never be
observed. -/
theorem c7_builder_round_trip_never_succeeds :
    writer_build true "Example" "service.yaml" ["service.yaml"] []
      (fun _ => .ok ()) =
      .error (.attributeError "META_MIMETYPES_GLOB") := rfl
